import Mathlib

/-
Verification of the retry / poll logic of the smtp-api service
(src/api/index.py) against its specification.

Modelling conventions:
  * The upstream gateway is an oracle.  For account creation it maps the
    attempt number and the address payload to the outcome of
    MailTmClient._create_account; for message listing it maps the fetch
    number to the outcome of the GET request; an Except.error carries the
    message of the MailTmError raised by MailTmClient._request.
  * random.choice draws are an oracle stream rand : Nat -> Nat; draw k
    selects letters[rand k % 36], mirroring a uniform pick from the
    36-character alphabet.  generate_random_username consumes one draw per
    character, and each creation attempt consumes a fresh block of 10 draws.
  * asyncio sleeps are recorded in traces (their second argument for the
    creation backoff, a counter for the poll loop); the poll loop uses an
    abstract clock where a fetch takes zero time and each sleep advances
    the clock by the poll interval.
  * The poll loop carries fuel; Option.none as overall result means the
    fuel budget was exhausted (the Python loop would still be running).
  * Python truthiness of the optional string fields (None and "" are both
    falsy) is modelled by pyTruthy.
  * Not modelled: KeyError/TypeError escapes on malformed JSON shapes
    (missing "id" keys, non-dict bodies), which the Python code would not
    catch either, and the logging calls, which have no observable effect.
-/

namespace SmtpApi

/-- Alphabet used by generate_random_username:
string.ascii_lowercase + string.digits (36 characters). -/
def letters : List Char := "abcdefghijklmnopqrstuvwxyz0123456789".toList

/-- Outcome of one random.choice(letters) draw, given the oracle value n. -/
def letterAt (n : Nat) : Char :=
  letters.get ⟨n % 36, Nat.lt_of_lt_of_le (Nat.mod_lt n (by decide)) (by decide)⟩

/-- Model of generate_random_username: length characters, each from one
random.choice draw; offset locates this call in the global draw stream. -/
def generate_random_username (rand : Nat → Nat) (offset : Nat) (length : Nat) : String :=
  String.mk ((List.range length).map (fun i => letterAt (rand (offset + i))))

/-- One entry of the mailbox list in the provider response; path models
mb.get "path" (Option.none when the key is absent). -/
structure Mailbox where
  path : Option String
  id : String
deriving Repr, DecidableEq

/-- Provider response to a successful POST /accounts call. -/
structure AccountData where
  id : String
  mailboxes : List Mailbox
deriving Repr, DecidableEq

/-- Mutable fields of MailTmClient (base_url and the HTTP session carry no
state the claims mention). -/
structure MailTmClient where
  address : Option String
  password : Option String
  account_id : Option String
  mailbox_id : Option String
deriving Repr, DecidableEq

/-- Fresh client as built by MailTmClient.__init__. -/
def initClient : MailTmClient :=
  { address := none, password := none, account_id := none, mailbox_id := none }

/-- Python truthiness of an optional string: None and "" are falsy. -/
def pyTruthy : Option String → Bool
  | none => false
  | some s => !s.isEmpty

/-- AccountCreationError, carrying its message. -/
structure AccountCreationError where
  msg : String
deriving Repr, DecidableEq

/-- Observable effects of create_new_account: the addresses passed to the
gateway, in call order, and the seconds of each backoff sleep. -/
structure CreateTrace where
  calls : List String
  sleepSecs : List Nat
deriving Repr, DecidableEq

/-- Predicate of the inbox scan: mb.get "path" == "INBOX". -/
def inboxPred (mb : Mailbox) : Bool := mb.path == some "INBOX"

/-- Address built for one attempt: the f-string username @ domain, with the
username drawn from the attempt's block of 10 fresh draws. -/
def attemptAddress (rand : Nat → Nat) (domain : String) (attempt : Nat) : String :=
  generate_random_username rand (10 * attempt) 10 ++ "@" ++ domain

/-- Loop body of create_new_account over the remaining attempt numbers
(range max_retries).  An empty remainder after a failure is exactly the
Python condition attempt >= max_retries - 1, so the last attempt escalates
to AccountCreationError while earlier ones sleep 3 seconds and retry with a
fresh address.  A missing INBOX raises MailTmError inside the try block and
is caught by the same except clause as a gateway failure. -/
def create_go (gw : Nat → String → Except String AccountData) (rand : Nat → Nat)
    (domain password : String) (inst : MailTmClient) (trace : CreateTrace) :
    List Nat → Except AccountCreationError MailTmClient × CreateTrace
  | [] => (.error ⟨"未知錯誤導致帳號創建失敗。"⟩, trace)
  | attempt :: rest =>
    match gw attempt (attemptAddress rand domain attempt) with
    | .ok account_data =>
      match account_data.mailboxes.find? inboxPred with
      | some inbox =>
        (.ok { inst with account_id := some account_data.id,
                         address := some (attemptAddress rand domain attempt),
                         password := some password,
                         mailbox_id := some inbox.id },
         { trace with calls := trace.calls ++ [attemptAddress rand domain attempt] })
      | none =>
        match rest with
        | [] =>
          (.error ⟨"創建帳號失敗，已達最大重試次數: " ++ "在帳號中未找到 INBOX"⟩,
           { trace with calls := trace.calls ++ [attemptAddress rand domain attempt] })
        | _ :: _ =>
          create_go gw rand domain password
            { inst with account_id := some account_data.id,
                        address := some (attemptAddress rand domain attempt),
                        password := some password }
            { calls := trace.calls ++ [attemptAddress rand domain attempt],
              sleepSecs := trace.sleepSecs ++ [3] }
            rest
    | .error e =>
      match rest with
      | [] =>
        (.error ⟨"創建帳號失敗，已達最大重試次數: " ++ e⟩,
         { trace with calls := trace.calls ++ [attemptAddress rand domain attempt] })
      | _ :: _ =>
        create_go gw rand domain password inst
          { calls := trace.calls ++ [attemptAddress rand domain attempt],
            sleepSecs := trace.sleepSecs ++ [3] }
          rest

/-- Factory method MailTmClient.create_new_account. -/
def create_new_account (gw : Nat → String → Except String AccountData) (rand : Nat → Nat)
    (domain password : String) (max_retries : Nat) :
    Except AccountCreationError MailTmClient × CreateTrace :=
  create_go gw rand domain password initClient ⟨[], []⟩ (List.range max_retries)

/-- Message record; only the intro field is ever read (for logging). -/
structure Message where
  intro : String
deriving Repr, DecidableEq

/-- Message of the MailTmError raised when the identifiers are unset. -/
def configErrMsg : String := "帳號資訊未初始化，無法獲取訊息。"

/-- Model of MailTmClient.get_latest_message.  The second component is the
next fetch number: it advances exactly when the gateway was consulted, so
the configuration check provably precedes any network call.  A 204/None
response is modelled as the empty list; if messages is truthy the first
element is returned. -/
def get_latest_message (fetch : Nat → Except String (List Message))
    (client : MailTmClient) (k : Nat) : Except String (Option Message) × Nat :=
  if !(pyTruthy client.account_id) || !(pyTruthy client.mailbox_id) then
    (.error configErrMsg, k)
  else
    match fetch k with
    | .error e => (.error e, k + 1)
    | .ok messages => (.ok messages.head?, k + 1)

/-- Errors escaping wait_for_message: MessageTimeoutError, or a MailTmError
propagated from get_latest_message. -/
inductive WaitError where
  | messageTimeout (msg : String)
  | mailTm (msg : String)
deriving Repr, DecidableEq

/-- Abstract clock and counters of the poll loop: time elapsed since
start_time, fetches issued, sleeps performed. -/
structure PollState where
  elapsed : Int
  fetches : Nat
  sleeps : Nat
deriving Repr, DecidableEq

/-- Message of the MessageTimeoutError f-string. -/
def timeoutMsg (timeout : Int) : String := "在 " ++ toString timeout ++ " 秒內未收到任何郵件。"

/-- Loop of MailTmClient.wait_for_message on the abstract clock: while
elapsed < timeout, fetch; return the message if present, otherwise sleep
interval and recheck; raise MessageTimeoutError when the deadline passed.
Option.none means the fuel ran out with the loop still running. -/
def wait_loop (fetch : Nat → Except String (List Message)) (client : MailTmClient)
    (timeout interval : Int) (st : PollState) :
    Nat → Option (Except WaitError Message × PollState)
  | 0 => none
  | fuel + 1 =>
    if st.elapsed < timeout then
      match get_latest_message fetch client st.fetches with
      | (.error e, k) => some (.error (.mailTm e), { st with fetches := k })
      | (.ok (some message), k) => some (.ok message, { st with fetches := k })
      | (.ok none, k) =>
        wait_loop fetch client timeout interval
          { elapsed := st.elapsed + interval, fetches := k, sleeps := st.sleeps + 1 } fuel
    else
      some (.error (.messageTimeout (timeoutMsg timeout)), st)

/-- MailTmClient.wait_for_message: the loop started at elapsed 0 with no
fetch or sleep performed yet. -/
def wait_for_message (fetch : Nat → Except String (List Message)) (client : MailTmClient)
    (timeout interval : Int) (fuel : Nat) : Option (Except WaitError Message × PollState) :=
  wait_loop fetch client timeout interval ⟨0, 0, 0⟩ fuel

/-- Model of MailTmClient.delete_account; del is the DELETE oracle and the
Nat counts DELETE calls issued.  A falsy account_id (None or "") logs and
returns without any call or field change. -/
def delete_account (del : String → Except String Unit) (client : MailTmClient) :
    Except String (MailTmClient × Nat) :=
  match client.account_id with
  | none => .ok (client, 0)
  | some accId =>
    if accId.isEmpty then .ok (client, 0)
    else
      match del accId with
      | .error e => .error e
      | .ok _ => .ok ({ client with account_id := none, address := none }, 1)

/-- Request body of POST /api/wait_for_message; a field is Option.none when
the key is absent from the JSON object, and the whole body is Option.none
when there is no (or an empty) JSON object. -/
structure WaitBody where
  accountId : Option String
  mailboxId : Option String
  timeout : Option Int
  interval : Option Int
deriving Repr, DecidableEq

/-- HTTP response of the facade: status code plus either the message JSON
or the error string. -/
inductive ApiResponse where
  | ok (status : Nat) (message : Message)
  | err (status : Nat) (error : String)
deriving Repr, DecidableEq

/-- Body-validation error text (quotes around the key names elided). -/
def missingFieldsMsg : String := "Missing accountId or mailboxId in request body"

/-- Client the endpoint builds: a fresh MailTmClient whose account_id and
mailbox_id are then assigned from the request body. -/
def waitClient (account_id mailbox_id : String) : MailTmClient :=
  { initClient with account_id := some account_id, mailbox_id := some mailbox_id }

/-- Model of the api_wait_for_message handler: 500 without a configured
key, 400 when the body or one of the two required keys is missing,
otherwise a client is built from the body fields, timeout/interval default
to 60/5, and the poll outcome maps to 200, 408 (MessageTimeoutError) or
500 (other MailTmError). -/
def api_wait_for_message (apiKey : String) (fetch : Nat → Except String (List Message))
    (body : Option WaitBody) (fuel : Nat) : Option ApiResponse :=
  if apiKey.isEmpty then some (.err 500 "Server is not configured with an API key.") else
  match body with
  | none => some (.err 400 missingFieldsMsg)
  | some data =>
    match data.accountId, data.mailboxId with
    | some account_id, some mailbox_id =>
      match wait_for_message fetch (waitClient account_id mailbox_id)
          (data.timeout.getD 60) (data.interval.getD 5) fuel with
      | none => none
      | some (.ok message, _) => some (.ok 200 message)
      | some (.error (.messageTimeout e), _) => some (.err 408 e)
      | some (.error (.mailTm e), _) => some (.err 500 e)
    | _, _ => some (.err 400 missingFieldsMsg)

/-! Concrete gateway, client, fetch and draw-stream fixtures used by the
closed witness and counterexample theorems. -/

/-- Draw stream returning the draw index itself. -/
def randAsc : Nat → Nat := fun k => k

/-- Draw stream constantly zero. -/
def randZero : Nat → Nat := fun _ => 0

/-- Gateway whose creation call always fails. -/
def gwBoom : Nat → String → Except String AccountData := fun _ _ => .error "boom"

/-- Gateway always succeeding with non-empty identifiers and an INBOX. -/
def gwGoodIds : Nat → String → Except String AccountData := fun _ _ =>
  .ok { id := "acc1", mailboxes := [{ path := some "INBOX", id := "mb1" }] }

/-- Gateway always succeeding but with empty identifier strings. -/
def gwEmptyIds : Nat → String → Except String AccountData := fun _ _ =>
  .ok { id := "", mailboxes := [{ path := some "INBOX", id := "" }] }

/-- Gateway always succeeding but with no INBOX-path mailbox entry. -/
def gwNoInbox : Nat → String → Except String AccountData := fun _ _ =>
  .ok { id := "acc1", mailboxes := [{ path := some "Trash", id := "t1" }] }

/-- Gateway failing on the first two attempts and then succeeding. -/
def gwFailTwice : Nat → String → Except String AccountData := fun n _ =>
  if n < 2 then .error "boom"
  else .ok { id := "acc1", mailboxes := [{ path := some "INBOX", id := "mb1" }] }

/-- Client returned by create_new_account gwGoodIds randAsc. -/
def clientGood : MailTmClient :=
  { address := some "abcdefghij@vvvcx.me", password := some "pw",
    account_id := some "acc1", mailbox_id := some "mb1" }

/-- Client returned by create_new_account gwEmptyIds randZero. -/
def clientEmptyIds : MailTmClient :=
  { address := some "aaaaaaaaaa@vvvcx.me", password := some "thisispassword",
    account_id := some "", mailbox_id := some "" }

/-- Client with both identifiers set, as the wait endpoint builds it. -/
def clientReady : MailTmClient :=
  { address := none, password := none, account_id := some "acct", mailbox_id := some "mbox" }

/-- Client with an empty-string (falsy) account identifier. -/
def clientEmptyAcc : MailTmClient :=
  { address := none, password := none, account_id := some "", mailbox_id := some "mbox" }

/-- Request body missing the accountId key. -/
def bodyNoAcc : WaitBody :=
  { accountId := none, mailboxId := some "mbox", timeout := none, interval := none }

/-- Fetch oracle whose mailbox is always empty. -/
def fetchEmpty : Nat → Except String (List Message) := fun _ => .ok []

/-- Fetch oracle that always has one message. -/
def fetchHello : Nat → Except String (List Message) := fun _ => .ok [{ intro := "hello" }]

/-! Helper lemmas about the random username generator. -/

/-- Every character of the alphabet is a lowercase letter or a digit. -/
theorem letters_lower_digit : letters.all (fun c => c.isLower || c.isDigit) = true := by decide

/-- Every draw produces a character of the alphabet. -/
theorem letterAt_mem (n : Nat) : letterAt n ∈ letters := List.get_mem ..

/-- Generated usernames have the requested length. -/
theorem username_length (rand : Nat → Nat) (offset n : Nat) :
    (generate_random_username rand offset n).length = n := by
  simp [generate_random_username, String.length_mk]

/-- Every character of a generated username is a lowercase letter or digit. -/
theorem username_chars (rand : Nat → Nat) (offset n : Nat) :
    ∀ c ∈ (generate_random_username rand offset n).toList, (c.isLower || c.isDigit) = true := by
  intro c hc
  have hc2 : c ∈ (List.range n).map (fun i => letterAt (rand (offset + i))) := hc
  obtain ⟨i, _, rfl⟩ := List.mem_map.mp hc2
  exact List.all_eq_true.mp letters_lower_digit _ (letterAt_mem _)

/-! Helper lemmas about the creation retry loop. -/

/-- Exhaustion lemma: if every remaining attempt fails (either because the
gateway call fails, or because its response has no INBOX entry), the loop
ends in AccountCreationError after calling the gateway once per attempt
with that attempt's fresh address, sleeping 3 seconds between consecutive
attempts. -/
theorem create_go_attempts_fail (gw : Nat → String → Except String AccountData)
    (rand : Nat → Nat) (domain password : String)
    (hgw : ∀ n a, (∃ e, gw n a = .error e) ∨
      (∃ data, gw n a = .ok data ∧ data.mailboxes.find? inboxPred = none)) :
    ∀ (l : List Nat) (inst : MailTmClient) (trace : CreateTrace), ∃ msg,
      create_go gw rand domain password inst trace l =
        (.error ⟨msg⟩,
         { calls := trace.calls ++ l.map (attemptAddress rand domain),
           sleepSecs := trace.sleepSecs ++ List.replicate (l.length - 1) 3 }) := by
  intro l
  induction l with
  | nil =>
    intro inst trace
    exact ⟨"未知錯誤導致帳號創建失敗。", by simp [create_go]⟩
  | cons a rest ih =>
    intro inst trace
    rcases hgw a (attemptAddress rand domain a) with ⟨e, he⟩ | ⟨data, hd, hfind⟩
    · simp only [create_go, he]
      cases rest with
      | nil => exact ⟨"創建帳號失敗，已達最大重試次數: " ++ e, by simp⟩
      | cons b rest2 =>
        obtain ⟨msg, hm⟩ := ih inst
          ⟨trace.calls ++ [attemptAddress rand domain a], trace.sleepSecs ++ [3]⟩
        refine ⟨msg, ?_⟩
        rw [hm]
        simp [List.replicate_succ]
    · simp only [create_go, hd, hfind]
      cases rest with
      | nil => exact ⟨"創建帳號失敗，已達最大重試次數: " ++ "在帳號中未找到 INBOX", by simp⟩
      | cons b rest2 =>
        obtain ⟨msg, hm⟩ := ih
          { inst with account_id := some data.id,
                      address := some (attemptAddress rand domain a),
                      password := some password }
          ⟨trace.calls ++ [attemptAddress rand domain a], trace.sleepSecs ++ [3]⟩
        refine ⟨msg, ?_⟩
        rw [hm]
        simp [List.replicate_succ]

/-- C1: with every gateway creation call failing and maxRetries >= 1,
create_new_account fails with AccountCreationError (the spec's
ProvisionError), the gateway having been called exactly maxRetries times,
with a fixed 3-second backoff sleep between consecutive attempts. -/
theorem c1_exhausted_retries (gw : Nat → String → Except String AccountData)
    (rand : Nat → Nat) (domain password : String) (max_retries : Nat)
    (_hmr : 1 ≤ max_retries) (hgw : ∀ n a, ∃ e, gw n a = Except.error e) :
    ∃ msg trace,
      create_new_account gw rand domain password max_retries = (.error ⟨msg⟩, trace) ∧
      trace.calls.length = max_retries ∧
      trace.sleepSecs = List.replicate (max_retries - 1) 3 := by
  obtain ⟨msg, hm⟩ := create_go_attempts_fail gw rand domain password
    (fun n a => Or.inl (hgw n a)) (List.range max_retries) initClient ⟨[], []⟩
  exact ⟨msg, _, hm, by simp, by simp⟩

/-- Witness for C1 at maxRetries = 2 with an always-failing gateway. -/
theorem c1_exhausted_retries_witness :
    ∃ msg trace,
      create_new_account gwBoom randZero "vvvcx.me" "pw" 2 = (.error ⟨msg⟩, trace) ∧
      trace.calls.length = 2 ∧
      trace.sleepSecs = List.replicate (2 - 1) 3 :=
  c1_exhausted_retries gwBoom randZero "vvvcx.me" "pw" 2 (by decide)
    (fun n a => ⟨"boom", rfl⟩)

/-- Success-shape lemma: a successful run of the retry loop got, on some
attempt, a gateway success whose mailbox list contains an INBOX entry, and
the returned client carries exactly that attempt's address, the given
password, the returned account id and the INBOX entry's id. -/
theorem create_go_ok_shape (gw : Nat → String → Except String AccountData)
    (rand : Nat → Nat) (domain password : String) :
    ∀ (l : List Nat) (inst : MailTmClient) (trace : CreateTrace)
      (client : MailTmClient) (trace2 : CreateTrace),
      create_go gw rand domain password inst trace l = (.ok client, trace2) →
      ∃ attempt account_data inbox,
        gw attempt (attemptAddress rand domain attempt) = .ok account_data ∧
        account_data.mailboxes.find? inboxPred = some inbox ∧
        client.address = some (attemptAddress rand domain attempt) ∧
        client.password = some password ∧
        client.account_id = some account_data.id ∧
        client.mailbox_id = some inbox.id := by
  intro l
  induction l with
  | nil =>
    intro inst trace client trace2 h
    simp [create_go] at h
  | cons a rest ih =>
    intro inst trace client trace2 h
    cases hgw : gw a (attemptAddress rand domain a) with
    | ok data =>
      cases hfind : data.mailboxes.find? inboxPred with
      | some inbox =>
        simp only [create_go, hgw, hfind, Prod.mk.injEq, Except.ok.injEq] at h
        refine ⟨a, data, inbox, hgw, hfind, ?_, ?_, ?_, ?_⟩ <;> rw [← h.1]
      | none =>
        simp only [create_go, hgw, hfind] at h
        cases rest with
        | nil => simp at h
        | cons b rest2 => exact ih _ _ _ _ h
    | error e =>
      simp only [create_go, hgw] at h
      cases rest with
      | nil => simp at h
      | cons b rest2 => exact ih _ _ _ _ h

/-- C2 (amended): every successful create_new_account returns an address
of shape [a-z0-9] to the power 10 followed by @domain, and accountId
(mailboxId) equal to the account id (the INBOX entry's id) of the gateway
response, hence non-empty whenever the provider returns non-empty
identifier strings. -/
theorem c2_success_fields (gw : Nat → String → Except String AccountData)
    (rand : Nat → Nat) (domain password : String) (max_retries : Nat)
    (client : MailTmClient) (trace : CreateTrace)
    (hok : create_new_account gw rand domain password max_retries = (.ok client, trace))
    (hids : ∀ n a account_data, gw n a = .ok account_data →
      account_data.id.isEmpty = false ∧
      ∀ mb ∈ account_data.mailboxes, mb.id.isEmpty = false) :
    (∃ u, client.address = some (u ++ "@" ++ domain) ∧ u.length = 10 ∧
      ∀ c ∈ u.toList, (c.isLower || c.isDigit) = true) ∧
    (∃ a, client.account_id = some a ∧ a.isEmpty = false) ∧
    (∃ m, client.mailbox_id = some m ∧ m.isEmpty = false) := by
  obtain ⟨attempt, account_data, inbox, hgw, hfind, haddr, hpw, hacc, hmb⟩ :=
    create_go_ok_shape gw rand domain password _ _ _ _ _ hok
  obtain ⟨hid, hmbs⟩ := hids attempt _ account_data hgw
  exact ⟨⟨generate_random_username rand (10 * attempt) 10, haddr,
          username_length rand (10 * attempt) 10, username_chars rand (10 * attempt) 10⟩,
         ⟨account_data.id, hacc, hid⟩,
         ⟨inbox.id, hmb, hmbs inbox (List.mem_of_find?_eq_some hfind)⟩⟩

/-- Witness for C2 (amended): a first-attempt success with non-empty
provider identifiers. -/
theorem c2_success_fields_witness :
    (∃ u, clientGood.address = some (u ++ "@" ++ "vvvcx.me") ∧ u.length = 10 ∧
      ∀ c ∈ u.toList, (c.isLower || c.isDigit) = true) ∧
    (∃ a, clientGood.account_id = some a ∧ a.isEmpty = false) ∧
    (∃ m, clientGood.mailbox_id = some m ∧ m.isEmpty = false) :=
  c2_success_fields gwGoodIds randAsc "vvvcx.me" "pw" 3 clientGood
    ⟨["abcdefghij@vvvcx.me"], []⟩ rfl
    (fun n a account_data hd => by
      injection hd with h
      rw [← h]
      exact ⟨rfl, by decide⟩)

/-- C2 counterexample: a gateway answering with empty identifier strings
produces a successful creation whose accountId and mailboxId are the empty
string, so the unconditional non-emptiness claim fails. -/
theorem c2_counterexample :
    (create_new_account gwEmptyIds randZero "vvvcx.me" "thisispassword" 3).1 =
      .ok clientEmptyIds ∧
    clientEmptyIds.account_id = some "" ∧ clientEmptyIds.mailbox_id = some "" :=
  ⟨rfl, rfl, rfl⟩

/-- C5: part one, on success the client's mailbox_id is the id of an
INBOX-path entry of the mailbox list returned by the gateway on the
succeeding attempt; part two, when every gateway response lacks an INBOX
entry the attempt fails with the no-inbox error and is retried like any
other failure, exhausting to AccountCreationError after maxRetries calls
with maxRetries - 1 backoff sleeps. -/
theorem c5_inbox_invariant (gw : Nat → String → Except String AccountData)
    (rand : Nat → Nat) (domain password : String) (max_retries : Nat) :
    (∀ client trace,
      create_new_account gw rand domain password max_retries = (.ok client, trace) →
      ∃ account_data inbox, inbox ∈ account_data.mailboxes ∧ inbox.path = some "INBOX" ∧
        client.account_id = some account_data.id ∧ client.mailbox_id = some inbox.id ∧
        ∃ attempt, gw attempt (attemptAddress rand domain attempt) = .ok account_data) ∧
    ((∀ n a, ∃ account_data, gw n a = .ok account_data ∧
        account_data.mailboxes.find? inboxPred = none) →
      ∃ msg trace,
        create_new_account gw rand domain password max_retries = (.error ⟨msg⟩, trace) ∧
        trace.calls.length = max_retries ∧
        trace.sleepSecs = List.replicate (max_retries - 1) 3) := by
  constructor
  · intro client trace hok
    obtain ⟨attempt, account_data, inbox, hgw, hfind, haddr, hpw, hacc, hmb⟩ :=
      create_go_ok_shape gw rand domain password _ _ _ _ _ hok
    have hpath : inboxPred inbox = true := List.find?_some hfind
    refine ⟨account_data, inbox, List.mem_of_find?_eq_some hfind, ?_, hacc, hmb, attempt, hgw⟩
    simpa [inboxPred] using hpath
  · intro hgw
    obtain ⟨msg, hm⟩ := create_go_attempts_fail gw rand domain password
      (fun n a => Or.inr (hgw n a)) (List.range max_retries) initClient ⟨[], []⟩
    exact ⟨msg, _, hm, by simp, by simp⟩

/-- Witness for C5: the invariant instantiated at a concrete first-attempt
success. -/
theorem c5_inbox_invariant_witness :
    ∃ account_data inbox, inbox ∈ account_data.mailboxes ∧ inbox.path = some "INBOX" ∧
      clientGood.account_id = some account_data.id ∧
      clientGood.mailbox_id = some inbox.id ∧
      ∃ attempt, gwGoodIds attempt (attemptAddress randAsc "vvvcx.me" attempt) =
        .ok account_data :=
  (c5_inbox_invariant gwGoodIds randAsc "vvvcx.me" "pw" 3).1 clientGood
    ⟨["abcdefghij@vvvcx.me"], []⟩ rfl

/-- Appending the same @domain suffix preserves distinctness of the local
parts. -/
theorem address_ne_of_username_ne (domain : String) {u v : String} (h : u ≠ v) :
    u ++ "@" ++ domain ≠ v ++ "@" ++ domain := by
  intro he
  apply h
  apply String.ext
  have hd := congrArg String.data he
  simp only [String.data_append] at hd
  exact List.append_cancel_right (List.append_cancel_right hd)

/-- A range of at least three attempt numbers starts with 0, 1, 2. -/
theorem range_three_prefix (n : Nat) (h : 3 ≤ n) : ∃ t, List.range n = 0 :: 1 :: 2 :: t := by
  obtain ⟨k, rfl⟩ : ∃ k, n = 3 + k := ⟨n - 3, by omega⟩
  exact ⟨(List.range k).map (3 + ·), by rw [List.range_add]; rfl⟩

/-- C6: when the gateway fails on attempts 0 and 1 and succeeds with an
INBOX on attempt 2, creation succeeds, the gateway is called exactly three
times with the three per-attempt fresh addresses, and those addresses are
pairwise distinct as soon as the three freshly drawn usernames are (each
attempt consumes its own block of 10 draws). -/
theorem c6_two_failures_then_success (gw : Nat → String → Except String AccountData)
    (rand : Nat → Nat) (domain password : String) (max_retries : Nat)
    (hmr : 3 ≤ max_retries)
    (h0 : ∃ e, gw 0 (attemptAddress rand domain 0) = .error e)
    (h1 : ∃ e, gw 1 (attemptAddress rand domain 1) = .error e)
    (h2 : ∃ account_data inbox,
      gw 2 (attemptAddress rand domain 2) = .ok account_data ∧
      account_data.mailboxes.find? inboxPred = some inbox)
    (hdistinct :
      generate_random_username rand (10 * 0) 10 ≠ generate_random_username rand (10 * 1) 10 ∧
      generate_random_username rand (10 * 0) 10 ≠ generate_random_username rand (10 * 2) 10 ∧
      generate_random_username rand (10 * 1) 10 ≠ generate_random_username rand (10 * 2) 10) :
    ∃ client trace,
      create_new_account gw rand domain password max_retries = (.ok client, trace) ∧
      trace.calls = [attemptAddress rand domain 0, attemptAddress rand domain 1,
        attemptAddress rand domain 2] ∧
      trace.calls.Pairwise (fun x y => x ≠ y) := by
  obtain ⟨e0, he0⟩ := h0
  obtain ⟨e1, he1⟩ := h1
  obtain ⟨data2, inbox2, hd2, hf2⟩ := h2
  obtain ⟨t, ht⟩ := range_three_prefix max_retries hmr
  obtain ⟨h01, h02, h12⟩ := hdistinct
  have heq : create_new_account gw rand domain password max_retries =
      (.ok { address := some (attemptAddress rand domain 2), password := some password,
             account_id := some data2.id, mailbox_id := some inbox2.id },
       { calls := [attemptAddress rand domain 0, attemptAddress rand domain 1,
                   attemptAddress rand domain 2], sleepSecs := [3, 3] }) := by
    rw [create_new_account, ht]
    simp [create_go, he0, he1, hd2, hf2, initClient]
  refine ⟨_, _, heq, rfl, ?_⟩
  have n01 := address_ne_of_username_ne domain h01
  have n02 := address_ne_of_username_ne domain h02
  have n12 := address_ne_of_username_ne domain h12
  refine List.Pairwise.cons ?_ (List.Pairwise.cons ?_ (List.Pairwise.cons ?_ List.Pairwise.nil))
  · intro b hb
    rcases List.mem_cons.mp hb with rfl | hb
    · exact n01
    rcases List.mem_cons.mp hb with rfl | hb
    · exact n02
    simp at hb
  · intro b hb
    rcases List.mem_cons.mp hb with rfl | hb
    · exact n12
    simp at hb
  · intro b hb
    simp at hb

/-- Witness for C6: a concrete gateway failing twice then succeeding, with
the identity draw stream. -/
theorem c6_two_failures_then_success_witness :
    ∃ client trace,
      create_new_account gwFailTwice randAsc "vvvcx.me" "pw" 3 = (.ok client, trace) ∧
      trace.calls = [attemptAddress randAsc "vvvcx.me" 0, attemptAddress randAsc "vvvcx.me" 1,
        attemptAddress randAsc "vvvcx.me" 2] ∧
      trace.calls.Pairwise (fun x y => x ≠ y) :=
  c6_two_failures_then_success gwFailTwice randAsc "vvvcx.me" "pw" 3 (by decide)
    ⟨"boom", rfl⟩ ⟨"boom", rfl⟩
    ⟨{ id := "acc1", mailboxes := [{ path := some "INBOX", id := "mb1" }] },
     { path := some "INBOX", id := "mb1" }, rfl, rfl⟩
    ⟨by decide, by decide, by decide⟩

/-- Deadline lemma for the poll loop: with identifiers set, every fetch
empty and a positive interval, a run still inside the deadline but with
enough fuel to cross it ends in MessageTimeoutError, at an elapsed time
at least the timeout but short of it by less than one interval. -/
theorem wait_loop_empty_all (fetch : Nat → Except String (List Message))
    (client : MailTmClient) (timeout interval : Int)
    (hacc : pyTruthy client.account_id = true) (hmb : pyTruthy client.mailbox_id = true)
    (hfetch : ∀ k, fetch k = .ok []) (_hint : 1 ≤ interval) :
    ∀ (fuel : Nat) (st : PollState), st.elapsed < timeout →
      timeout ≤ st.elapsed + (fuel : Int) * interval →
      ∃ st2, wait_loop fetch client timeout interval st (fuel + 1) =
          some (.error (.messageTimeout (timeoutMsg timeout)), st2) ∧
        timeout ≤ st2.elapsed ∧ st2.elapsed < timeout + interval := by
  intro fuel
  induction fuel with
  | zero =>
    intro st h1 h2
    simp only [Nat.cast_zero, zero_mul, add_zero] at h2
    omega
  | succ f ih =>
    intro st h1 h2
    rw [wait_loop, if_pos h1]
    have hg : get_latest_message fetch client st.fetches =
        (.ok (none : Option Message), st.fetches + 1) := by
      simp [get_latest_message, hacc, hmb, hfetch]
    rw [hg]
    by_cases hnext : st.elapsed + interval < timeout
    · have hb : timeout ≤ (st.elapsed + interval) + (f : Int) * interval := by
        have hexp : ((f + 1 : Nat) : Int) * interval = (f : Int) * interval + interval := by
          push_cast
          ring
        rw [hexp] at h2
        linarith
      exact ih { elapsed := st.elapsed + interval, fetches := st.fetches + 1,
                 sleeps := st.sleeps + 1 } hnext hb
    · refine ⟨{ elapsed := st.elapsed + interval, fetches := st.fetches + 1,
                sleeps := st.sleeps + 1 }, ?_,
        show timeout ≤ st.elapsed + interval by omega,
        show st.elapsed + interval < timeout + interval by omega⟩
      simp [wait_loop, hnext]

/-- C3 (amended): with the identifiers set, every fetch of the newest
message empty, timeout at least 0 and interval at least 1, wait_for_message
raises MessageTimeoutError and the elapsed abstract time at the raise lies
in the half-open window from timeout (inclusive) to timeout + interval
(exclusive). -/
theorem c3_timeout_window (fetch : Nat → Except String (List Message))
    (client : MailTmClient) (timeout interval : Int)
    (hacc : pyTruthy client.account_id = true) (hmb : pyTruthy client.mailbox_id = true)
    (hfetch : ∀ k, fetch k = .ok [])
    (htime : 0 ≤ timeout) (hint : 1 ≤ interval) :
    ∃ st, wait_for_message fetch client timeout interval (timeout.toNat + 1) =
        some (.error (.messageTimeout (timeoutMsg timeout)), st) ∧
      timeout ≤ st.elapsed ∧ st.elapsed < timeout + interval := by
  by_cases h0 : (0 : Int) < timeout
  · have hb : timeout ≤ (0 : Int) + (timeout.toNat : Int) * interval := by
      rw [Int.toNat_of_nonneg htime]
      have := le_mul_of_one_le_right htime hint
      linarith
    exact wait_loop_empty_all fetch client timeout interval hacc hmb hfetch hint
      timeout.toNat ⟨0, 0, 0⟩ h0 hb
  · have ht0 : timeout = 0 := le_antisymm (not_lt.mp h0) htime
    subst ht0
    refine ⟨⟨0, 0, 0⟩, ?_, show (0 : Int) ≤ 0 by omega, show (0 : Int) < 0 + interval by omega⟩
    simp [wait_for_message, wait_loop]

/-- Witness for C3 (amended) at timeout 7, interval 3: the raise happens
at elapsed time 9, inside the window from 7 to 10. -/
theorem c3_timeout_window_witness :
    ∃ st, wait_for_message fetchEmpty clientReady 7 3 ((7 : Int).toNat + 1) =
        some (.error (.messageTimeout (timeoutMsg 7)), st) ∧
      (7 : Int) ≤ st.elapsed ∧ st.elapsed < 7 + 3 :=
  c3_timeout_window fetchEmpty clientReady 7 3 rfl rfl (fun k => rfl)
    (by decide) (by decide)

/-- C3 counterexample: at timeout -5 and interval 5, the poll does raise
MessageTimeoutError, but at elapsed time 0, which is not in the half-open
window from -5 to 0, refuting the claim for arbitrary timeouts. -/
theorem c3_counterexample :
    wait_for_message fetchEmpty clientReady (-5) 5 1 =
      some (.error (.messageTimeout (timeoutMsg (-5))), ⟨0, 0, 0⟩) ∧
    ¬ ((-5 : Int) ≤ 0 ∧ (0 : Int) < -5 + 5) :=
  ⟨rfl, by decide⟩

/-- C4: once the loop is entered (positive timeout) and the first fetch
already yields a message, wait_for_message returns that first message with
exactly one fetch, zero sleeps and zero elapsed time, for any interval and
any fuel. -/
theorem c4_immediate_return (fetch : Nat → Except String (List Message))
    (client : MailTmClient) (timeout interval : Int) (fuel : Nat)
    (m : Message) (rest : List Message)
    (hacc : pyTruthy client.account_id = true) (hmb : pyTruthy client.mailbox_id = true)
    (hfirst : fetch 0 = .ok (m :: rest))
    (ht : 0 < timeout) (hfuel : 1 ≤ fuel) :
    wait_for_message fetch client timeout interval fuel = some (.ok m, ⟨0, 1, 0⟩) := by
  obtain ⟨f, rfl⟩ : ∃ f, fuel = f + 1 := ⟨fuel - 1, by omega⟩
  rw [wait_for_message, wait_loop, if_pos ht]
  have hg : get_latest_message fetch client 0 = (.ok (some m), 0 + 1) := by
    simp [get_latest_message, hacc, hmb, hfirst]
  rw [hg]

/-- Witness for C4 with a concrete one-message mailbox. -/
theorem c4_immediate_return_witness :
    wait_for_message fetchHello clientReady 60 5 3 =
      some (.ok { intro := "hello" }, ⟨0, 1, 0⟩) :=
  c4_immediate_return fetchHello clientReady 60 5 3 { intro := "hello" } []
    rfl rfl rfl (by decide) (by decide)

/-- C10: for every timeout at most 0, the deadline check precedes the
first fetch, so wait_for_message raises MessageTimeoutError immediately
with zero fetches and zero sleeps, whatever the fetch oracle holds. -/
theorem c10_nonpositive_timeout (fetch : Nat → Except String (List Message))
    (client : MailTmClient) (timeout interval : Int) (fuel : Nat)
    (ht : timeout ≤ 0) (hfuel : 1 ≤ fuel) :
    wait_for_message fetch client timeout interval fuel =
      some (.error (.messageTimeout (timeoutMsg timeout)), ⟨0, 0, 0⟩) := by
  obtain ⟨f, rfl⟩ : ∃ f, fuel = f + 1 := ⟨fuel - 1, by omega⟩
  have hnot : ¬ ((0 : Int) < timeout) := by omega
  simp [wait_for_message, wait_loop, hnot]

/-- Witness for C10 at timeout 0 with a message actually available. -/
theorem c10_nonpositive_timeout_witness :
    wait_for_message fetchHello clientReady 0 5 3 =
      some (.error (.messageTimeout (timeoutMsg 0)), ⟨0, 0, 0⟩) :=
  c10_nonpositive_timeout fetchHello clientReady 0 5 3 (by decide) (by decide)

/-- C8: with a falsy (unset or empty) account or mailbox identifier,
get_latest_message fails with the MailTmError configuration message
without consulting the gateway (the fetch counter is unchanged), and hence
wait_for_message, once its loop is entered, fails the same way with zero
fetches and zero sleeps. -/
theorem c8_unset_identifiers (fetch : Nat → Except String (List Message))
    (client : MailTmClient) (k : Nat) (timeout interval : Int) (fuel : Nat)
    (hunset : pyTruthy client.account_id = false ∨ pyTruthy client.mailbox_id = false) :
    get_latest_message fetch client k = (.error configErrMsg, k) ∧
    (0 < timeout → 1 ≤ fuel →
      wait_for_message fetch client timeout interval fuel =
        some (.error (.mailTm configErrMsg), ⟨0, 0, 0⟩)) := by
  have hg : ∀ j, get_latest_message fetch client j = (.error configErrMsg, j) := by
    intro j
    rcases hunset with h | h <;> simp [get_latest_message, h]
  refine ⟨hg k, fun ht hfuel => ?_⟩
  obtain ⟨f, rfl⟩ : ∃ f, fuel = f + 1 := ⟨fuel - 1, by omega⟩
  rw [wait_for_message, wait_loop, if_pos ht, hg]

/-- Witness for C8 with an empty-string account identifier. -/
theorem c8_unset_identifiers_witness :
    get_latest_message fetchHello clientEmptyAcc 0 = (.error configErrMsg, 0) ∧
    ((0 : Int) < 60 → 1 ≤ 3 →
      wait_for_message fetchHello clientEmptyAcc 60 5 3 =
        some (.error (.mailTm configErrMsg), ⟨0, 0, 0⟩)) :=
  c8_unset_identifiers fetchHello clientEmptyAcc 0 60 5 3 (Or.inl rfl)

/-- C9: a successful delete with a truthy account_id issues exactly one
DELETE call, clears account_id and address, and leaves password and
mailbox_id untouched. -/
theorem c9_delete_account (del : String → Except String Unit) (client : MailTmClient)
    (accId : String) (hid : client.account_id = some accId)
    (hne : accId.isEmpty = false) (hdel : del accId = .ok ()) :
    delete_account del client =
      .ok ({ address := none, password := client.password,
             account_id := none, mailbox_id := client.mailbox_id }, 1) := by
  simp [delete_account, hid, hne, hdel]

/-- Witness for C9 on a fully populated client. -/
theorem c9_delete_account_witness :
    delete_account (fun _ => .ok ()) clientGood =
      .ok ({ address := none, password := clientGood.password,
             account_id := none, mailbox_id := clientGood.mailbox_id }, 1) :=
  c9_delete_account (fun _ => .ok ()) clientGood "acc1" rfl rfl rfl

/-- C7: given a configured key, the wait_for_message endpoint returns 400
when the body or the accountId or mailboxId key is missing; for a complete
body it invokes the poll once and maps its outcome directly, 200 with the
message on success, 408 on MessageTimeoutError, 500 on any other
MailTmError; and a 408 response arises exactly from a complete body whose
poll ended in MessageTimeoutError. -/
theorem c7_wait_endpoint (apiKey : String) (fetch : Nat → Except String (List Message))
    (body : Option WaitBody) (fuel : Nat) (hkey : apiKey.isEmpty = false) :
    ((body = none ∨ ∃ b, body = some b ∧ (b.accountId = none ∨ b.mailboxId = none)) →
      api_wait_for_message apiKey fetch body fuel = some (.err 400 missingFieldsMsg)) ∧
    (∀ b aid mid r st, body = some b → b.accountId = some aid → b.mailboxId = some mid →
      wait_for_message fetch (waitClient aid mid)
          (b.timeout.getD 60) (b.interval.getD 5) fuel = some (r, st) →
      api_wait_for_message apiKey fetch body fuel =
        match r with
        | .ok message => some (.ok 200 message)
        | .error (.messageTimeout e) => some (.err 408 e)
        | .error (.mailTm e) => some (.err 500 e)) ∧
    ((∃ e, api_wait_for_message apiKey fetch body fuel = some (.err 408 e)) ↔
      (∃ b aid mid e st, body = some b ∧ b.accountId = some aid ∧ b.mailboxId = some mid ∧
        wait_for_message fetch (waitClient aid mid)
          (b.timeout.getD 60) (b.interval.getD 5) fuel =
            some (.error (.messageTimeout e), st))) := by
  refine ⟨?_, ?_, ?_⟩
  · rintro (rfl | ⟨b, rfl, hmiss⟩)
    · simp [api_wait_for_message, hkey]
    · rcases hmiss with h | h
      · simp [api_wait_for_message, hkey, h]
      · cases hacc : b.accountId with
        | none => simp [api_wait_for_message, hkey, hacc]
        | some aid => simp [api_wait_for_message, hkey, hacc, h]
  · rintro b aid mid r st rfl haid hmid hw
    cases r with
    | ok m => simp [api_wait_for_message, hkey, haid, hmid, hw]
    | error err =>
      cases err with
      | messageTimeout e => simp [api_wait_for_message, hkey, haid, hmid, hw]
      | mailTm e => simp [api_wait_for_message, hkey, haid, hmid, hw]
  · constructor
    · rintro ⟨e, he⟩
      cases body with
      | none => simp [api_wait_for_message, hkey, missingFieldsMsg] at he
      | some b =>
        cases hacc : b.accountId with
        | none => simp [api_wait_for_message, hkey, hacc, missingFieldsMsg] at he
        | some aid =>
          cases hmid : b.mailboxId with
          | none => simp [api_wait_for_message, hkey, hacc, hmid, missingFieldsMsg] at he
          | some mid =>
            cases hw : wait_for_message fetch (waitClient aid mid)
                (b.timeout.getD 60) (b.interval.getD 5) fuel with
            | none => simp [api_wait_for_message, hkey, hacc, hmid, hw] at he
            | some pr =>
              obtain ⟨r, st⟩ := pr
              cases r with
              | ok m => simp [api_wait_for_message, hkey, hacc, hmid, hw] at he
              | error err =>
                cases err with
                | messageTimeout e2 =>
                  exact ⟨b, aid, mid, e2, st, rfl, hacc, hmid, hw⟩
                | mailTm e2 => simp [api_wait_for_message, hkey, hacc, hmid, hw] at he
    · rintro ⟨b, aid, mid, e, st, rfl, haid, hmid, hw⟩
      exact ⟨e, by simp [api_wait_for_message, hkey, haid, hmid, hw]⟩

/-- Witness for C7: a body lacking accountId yields a 400 response. -/
theorem c7_wait_endpoint_witness :
    api_wait_for_message "key" fetchEmpty (some bodyNoAcc) 1 =
      some (.err 400 missingFieldsMsg) :=
  (c7_wait_endpoint "key" fetchEmpty (some bodyNoAcc) 1 rfl).1
    (Or.inr ⟨bodyNoAcc, rfl, Or.inl rfl⟩)

end SmtpApi
